import Mathlib

/-
Verification of the attestation-certificate pipeline (src/service/attest.rs).

Byte strings are lists of naturals. The pure DER encoders (BigEndianInteger,
Version, Datetime, Validity, Name, SerializedSubjectPublicKey,
SerializedSignature, SignatureAlgorithm, TbsCertificate, Certificate) are
translated directly from the source. The TLV emission primitives of the
flexiber encoder (TaggedSlice, the derive macro's field wrapping) and the
collaborator stores are not part of the source tree; they are modelled from
the spec, as marked on each such definition. The orchestration try_attest is
translated from the source over an explicit collaborator environment, and it
additionally records a trace of store operations plus ghost copies of the
intermediate values (the built TBS structure, the signed byte string, the
final certificate bytes) so that theorems can speak about them.
-/

namespace Trussed

/-- Byte strings are modelled as lists of naturals (each byte is below 256 in
the source, which only ever copies u8 values). -/
abbrev Bytes := List Nat

/-- Modelled from the spec: BER-TLV definite-length octets (glossary entries
DER and TLV). Lengths below 0x80 take one octet, lengths below 0x100 the two
octets 0x81 n, larger lengths 0x82 and two octets. This is the length form the
flexiber encoder called by the source writes. -/
def berLength (n : Nat) : Bytes :=
  if n < 0x80 then [n]
  else if n < 0x100 then [0x81, n]
  else [0x82, n / 0x100, n % 0x100]

/-- Modelled from the spec: emission of one complete TLV block, as performed
by encoder.encode on a TaggedSlice in the source — tag octet, definite-length
octets computed from the value, then the value bytes. -/
def tlv (tag : Nat) (value : Bytes) : Bytes :=
  tag :: berLength value.length ++ value

/-- Modelled from the spec (section 9, two-pass discipline): the flexiber
derive macro wraps every struct field in the tag of its tlv attribute. The
length octets are computed from the field's encoded_length, after which the
field's encode emits its bytes: the two can disagree, in which case the header
announces a different length than the body occupies. -/
def wrapField (tag : Nat) (declaredLength : Nat) (body : Bytes) : Bytes :=
  tag :: berLength declaredLength ++ body

/-- Size of a wrapped field as the derive's length pass computes it: one tag
octet, the length octets, and the declared length itself. -/
def fieldLen (declaredLength : Nat) : Nat :=
  1 + (berLength declaredLength).length + declaredLength

/-- 1.2.840.10045.4.3.2 ecdsaWithSHA256, as a complete OID TLV
(source constant P256_OID_ENCODING). -/
def P256_OID_ENCODING : Bytes := [0x06, 0x08, 0x2A, 0x86, 0x48, 0xCE, 0x3D, 0x04, 0x03, 0x02]

/-- 1.3.101.112 curveEd25519, as a complete OID TLV
(source constant ED255_OID_ENCODING). -/
def ED255_OID_ENCODING : Bytes := [0x06, 0x03, 0x2B, 0x65, 0x70]

/-- Source enum Version: only V3, encoded as INTEGER 2. -/
inductive Version where
  | V3
  deriving DecidableEq

/-- Source constant Version::ENCODING = 02 01 02. -/
def Version.ENCODING : Bytes := [0x02, 0x01, 0x02]

def Version.encoded_length : Version → Nat
  | Version.V3 => Version.ENCODING.length

def Version.encode : Version → Bytes
  | Version.V3 => Version.ENCODING

/-- The while loop of BigEndianInteger: drop leading zero bytes. -/
def stripLeadingZeros : Bytes → Bytes
  | [] => []
  | b :: bs => if b = 0 then stripLeadingZeros bs else b :: bs

/-- Source BigEndianInteger::encoded_length: length of the stripped slice,
plus one when it is empty or its first byte has the high bit set. -/
def BigEndianInteger.encoded_length (num : Bytes) : Nat :=
  match stripLeadingZeros num with
  | [] => 1
  | b :: bs => if 0x80 ≤ b then (b :: bs).length + 1 else (b :: bs).length

/-- Source BigEndianInteger::encode: the stripped bytes, preceded by a single
0x00 byte when the stripped slice is empty or starts with a byte ≥ 0x80. -/
def BigEndianInteger.encode (num : Bytes) : Bytes :=
  match stripLeadingZeros num with
  | [] => [0]
  | b :: bs => if 0x80 ≤ b then 0 :: b :: bs else b :: bs

/-- Rust lexicographic order on byte slices, used by the source's
comparison of the year digits against b"2050". -/
def lexLt : Bytes → Bytes → Bool
  | _, [] => false
  | [], _ :: _ => true
  | x :: xs, y :: ys => if x < y then true else if y < x then false else lexLt xs ys

/-- The ASCII bytes of "2050". -/
def b2050 : Bytes := [0x32, 0x30, 0x35, 0x30]

/-- Source Datetime::encoded_length: 0xF for a UTCTime year, 0x11 for a
GeneralizedTime year, chosen by lexicographic comparison of the first four
bytes against "2050". -/
def Datetime.encoded_length (d : Bytes) : Nat :=
  if lexLt (d.take 4) b2050 then 0xF else 0x11

/-- Source Datetime::encode: UTCTime (tag 0x17) over bytes 2.. of the literal
before 2050, GeneralizedTime (tag 0x18) over the whole literal from 2050 on. -/
def Datetime.encode (d : Bytes) : Bytes :=
  if lexLt (d.take 4) b2050 then tlv 0x17 (d.drop 2) else tlv 0x18 d

/-- The default validity end literal "99991231235959Z" from the source. -/
def defaultEnd : Bytes :=
  [0x39, 0x39, 0x39, 0x39, 0x31, 0x32, 0x33, 0x31, 0x32, 0x33, 0x35, 0x39, 0x35, 0x39, 0x5A]

/-- The fixed validity start literal "20210313120000Z" from the source. -/
def startDatetime : Bytes :=
  [0x32, 0x30, 0x32, 0x31, 0x30, 0x33, 0x31, 0x33, 0x31, 0x32, 0x30, 0x30, 0x30, 0x30, 0x5A]

/-- Source struct Validity: a start datetime and an optional end datetime. -/
structure Validity where
  start : Bytes
  end_ : Option Bytes
  deriving DecidableEq

/-- Modelled from the spec: an unset OPTIONAL value contributes no bytes to
the flexiber length computation (Validity::encoded_length adds the
encoded_length of the Option end field). -/
def optionDatetimeLength : Option Bytes → Nat
  | none => 0
  | some d => Datetime.encoded_length d

def Validity.encoded_length (v : Validity) : Nat :=
  Datetime.encoded_length v.start + optionDatetimeLength v.end_

/-- Source Validity::encode: the start, then the end defaulted to
"99991231235959Z" when unset. -/
def Validity.encode (v : Validity) : Bytes :=
  Datetime.encode v.start ++ Datetime.encode (v.end_.getD defaultEnd)

/-- Source struct Name: optional two-byte country code, optional
organization string. -/
structure Name where
  country : Option (Nat × Nat)
  organization : Option Bytes
  deriving DecidableEq

def Name.default : Name := { country := none, organization := none }

def Name.with_country (n : Name) (c : Nat × Nat) : Name :=
  { country := some c, organization := n.organization }

def Name.with_organization (n : Name) (o : Bytes) : Name :=
  { country := n.country, organization := some o }

/-- Source Name::encoded_length: 0xD for a present country,
11 + organization length for a present organization. -/
def Name.encoded_length (n : Name) : Nat :=
  (match n.country with
   | some _ => 0xD
   | none => 0) +
  (match n.organization with
   | some o => 11 + o.length
   | none => 0)

/-- The country AttributeTypeAndValue template from the source, with the two
country bytes patched into the last two positions. -/
def countryEncoding (c : Nat × Nat) : Bytes :=
  [0x30, 0x09, 0x06, 0x03, 0x55, 0x04, 0x06, 0x13, 0x02, c.1, c.2]

/-- Source struct EncodedOrganization, a derived SEQUENCE holding the
organizationName OID (2.5.4.10) and the UTF8String organization bytes. -/
def EncodedOrganization.encode (o : Bytes) : Bytes :=
  tlv 0x30 (tlv 0x06 [0x55, 0x04, 0x0A] ++ tlv 0x0C o)

/-- Source Name::encode: a SET around the country template when present,
then a SET around the encoded organization when present. -/
def Name.encode (n : Name) : Bytes :=
  (match n.country with
   | some c => tlv 0x31 (countryEncoding c)
   | none => []) ++
  (match n.organization with
   | some o => tlv 0x31 (EncodedOrganization.encode o)
   | none => [])

/-- Source enum SerializedSubjectPublicKey: a raw 32-byte Ed25519 public key
or a 65-byte uncompressed SEC1 P-256 point. -/
inductive SerializedSubjectPublicKey where
  | Ed255 (pub_key : Bytes)
  | P256 (pub_key : Bytes)
  deriving DecidableEq

def SerializedSubjectPublicKey.encoded_length : SerializedSubjectPublicKey → Nat
  | SerializedSubjectPublicKey.Ed255 _ => 0x2A
  | SerializedSubjectPublicKey.P256 _ => 0x59

/-- Source SerializedSubjectPublicKey::encode: the algorithm OID wrapped in a
SEQUENCE, then a BIT STRING whose content is 0x00 followed by the raw key. -/
def SerializedSubjectPublicKey.encode : SerializedSubjectPublicKey → Bytes
  | SerializedSubjectPublicKey.Ed255 pub_key =>
      tlv 0x30 ED255_OID_ENCODING ++ tlv 0x03 (0 :: pub_key)
  | SerializedSubjectPublicKey.P256 pub_key =>
      tlv 0x30 P256_OID_ENCODING ++ tlv 0x03 (0 :: pub_key)

/-- Source enum SerializedSignature: a raw 64-byte Ed25519 signature or a
DER-encoded ECDSA signature of at most 72 bytes. -/
inductive SerializedSignature where
  | Ed255 (signature : Bytes)
  | P256 (signature : Bytes)
  deriving DecidableEq

def SerializedSignature.encoded_length : SerializedSignature → Nat
  | SerializedSignature.Ed255 _ => 65
  | SerializedSignature.P256 signature => signature.length + 1

/-- Source SerializedSignature::encode: for Ed25519 a BIT STRING whose content
is 0x00 followed by the 64 raw bytes; for P-256 the ecdsaWithSHA256 OID in a
SEQUENCE followed by a BIT STRING of 0x00 and the DER signature bytes. -/
def SerializedSignature.encode : SerializedSignature → Bytes
  | SerializedSignature.Ed255 signature => tlv 0x03 (0 :: signature)
  | SerializedSignature.P256 signature =>
      tlv 0x30 P256_OID_ENCODING ++ tlv 0x03 (0 :: signature)

/-- Source enum SignatureAlgorithm. -/
inductive SignatureAlgorithm where
  | Ed255
  | P256
  deriving DecidableEq

def SignatureAlgorithm.encoded_length : SignatureAlgorithm → Nat
  | SignatureAlgorithm.Ed255 => ED255_OID_ENCODING.length
  | SignatureAlgorithm.P256 => P256_OID_ENCODING.length

def SignatureAlgorithm.encode : SignatureAlgorithm → Bytes
  | SignatureAlgorithm.Ed255 => ED255_OID_ENCODING
  | SignatureAlgorithm.P256 => P256_OID_ENCODING

/-- Modelled from the spec: the mechanism identifiers of the enclosing crate
(the Mechanism enum lives outside src/); only Ed255 and P256 are accepted by
the attestation service, the others stand for the remaining mechanisms. -/
inductive Mechanism where
  | Ed255
  | P256
  | X255
  | Sha256
  | HmacSha256
  | Totp
  deriving DecidableEq

/-- Modelled from the spec (section 7): the error kinds the orchestration can
surface; other stands for any further collaborator error value. -/
inductive Error where
  | MechanismNotAvailable
  | NoSuchKey
  | ImplementationError
  | InternalError
  | other (code : Nat)
  deriving DecidableEq

/-- Source TryFrom of Mechanism for SignatureAlgorithm: Ed255 and P256 map to
their algorithm, everything else is MechanismNotAvailable. -/
def SignatureAlgorithm.try_from : Mechanism → Except Error SignatureAlgorithm
  | Mechanism.Ed255 => Except.ok SignatureAlgorithm.Ed255
  | Mechanism.P256 => Except.ok SignatureAlgorithm.P256
  | _ => Except.error Error.MechanismNotAvailable

/-- Source struct TbsCertificate, fields in declaration order. -/
structure TbsCertificate where
  version : Version
  serial : Bytes
  signature_algorithm : SignatureAlgorithm
  issuer : Name
  validity : Validity
  subject : Name
  subject_public_key_info : SerializedSubjectPublicKey
  deriving DecidableEq

/-- Derived encoding of TbsCertificate: each field wrapped in its tlv
attribute tag (explicit context 0 for the version, INTEGER for the serial,
SEQUENCE for the rest), in declaration order, with no extensions field. -/
def TbsCertificate.encode (t : TbsCertificate) : Bytes :=
  wrapField 0xA0 (Version.encoded_length t.version) (Version.encode t.version)
  ++ wrapField 0x02 (BigEndianInteger.encoded_length t.serial) (BigEndianInteger.encode t.serial)
  ++ wrapField 0x30 (SignatureAlgorithm.encoded_length t.signature_algorithm)
       (SignatureAlgorithm.encode t.signature_algorithm)
  ++ wrapField 0x30 (Name.encoded_length t.issuer) (Name.encode t.issuer)
  ++ wrapField 0x30 (Validity.encoded_length t.validity) (Validity.encode t.validity)
  ++ wrapField 0x30 (Name.encoded_length t.subject) (Name.encode t.subject)
  ++ wrapField 0x30 (SerializedSubjectPublicKey.encoded_length t.subject_public_key_info)
       (SerializedSubjectPublicKey.encode t.subject_public_key_info)

/-- Derived length pass of TbsCertificate. -/
def TbsCertificate.encoded_length (t : TbsCertificate) : Nat :=
  fieldLen (Version.encoded_length t.version)
  + fieldLen (BigEndianInteger.encoded_length t.serial)
  + fieldLen (SignatureAlgorithm.encoded_length t.signature_algorithm)
  + fieldLen (Name.encoded_length t.issuer)
  + fieldLen (Validity.encoded_length t.validity)
  + fieldLen (Name.encoded_length t.subject)
  + fieldLen (SerializedSubjectPublicKey.encoded_length t.subject_public_key_info)

/-- The byte string signed by try_attest: TaggedValue::new(SEQUENCE, tbs)
serialized to a vector — a SEQUENCE header computed from the struct's
encoded_length, followed by the derived field encoding. -/
def tbsMessage (t : TbsCertificate) : Bytes :=
  wrapField 0x30 t.encoded_length t.encode

/-- Source struct Certificate: the pre-encoded TBS bytes, the signature
algorithm, and the serialized signature. -/
structure Certificate where
  tbs_certificate : Bytes
  signature_algorithm : SignatureAlgorithm
  signature : SerializedSignature
  deriving DecidableEq

/-- Length pass of the derived Certificate content. -/
def Certificate.contentLength (c : Certificate) : Nat :=
  fieldLen c.tbs_certificate.length
  + fieldLen (SignatureAlgorithm.encoded_length c.signature_algorithm)
  + fieldLen (SerializedSignature.encoded_length c.signature)

/-- Derived encoding of Certificate (the struct carries its own SEQUENCE
tlv attribute): an outer SEQUENCE around the three wrapped fields. The
tbs_certificate byte slice is wrapped in a fresh SEQUENCE header, like every
other field. -/
def Certificate.encode (c : Certificate) : Bytes :=
  wrapField 0x30 c.contentLength
    (wrapField 0x30 c.tbs_certificate.length c.tbs_certificate
     ++ wrapField 0x30 (SignatureAlgorithm.encoded_length c.signature_algorithm)
          (SignatureAlgorithm.encode c.signature_algorithm)
     ++ wrapField 0x03 (SerializedSignature.encoded_length c.signature)
          (SerializedSignature.encode c.signature))

/-- Follows the spec's words (section 4.6) for comparison with the source
encoder: the outer certificate SEQUENCE whose content is the pre-encoded TBS
byte string spliced verbatim — its own tag and length reused as-is — then the
algorithm SEQUENCE and the signature BIT STRING. -/
def certificateEncodeSpec (c : Certificate) : Bytes :=
  tlv 0x30
    (c.tbs_certificate
     ++ wrapField 0x30 (SignatureAlgorithm.encoded_length c.signature_algorithm)
          (SignatureAlgorithm.encode c.signature_algorithm)
     ++ wrapField 0x03 (SerializedSignature.encoded_length c.signature)
          (SerializedSignature.encode c.signature))

/-- The ASCII bytes of "Trussed". -/
def orgTrussed : Bytes := [0x54, 0x72, 0x75, 0x73, 0x73, 0x65, 0x64]

/-- Modelled from the spec (section 6): the attestation request. -/
structure AttestRequest where
  signing_mechanism : Mechanism
  private_key : Nat
  deriving DecidableEq

/-- Store operations performed by try_attest, in order, for reasoning about
side effects (spec sections 4.1 and 5). -/
inductive Event where
  | fillRandom
  | existsCheck (m : Mechanism)
  | deriveKey (m : Mechanism)
  | serializeKey (m : Mechanism) (handle : Nat)
  | deleteKey (handle : Nat)
  | sign (m : Mechanism)
  | writeCertificate
  deriving DecidableEq

/-- Result of one run: a reply, a typed error, or a Rust panic (an unwrap of
a collaborator failure). -/
inductive Outcome where
  | ok (certificate : Nat)
  | err (e : Error)
  | panicked
  deriving DecidableEq

/-- A run of try_attest: its outcome, the trace of store operations, and
ghost copies of the intermediate values for specification purposes. -/
structure RunResult where
  outcome : Outcome
  trace : List Event
  spki : Option SerializedSubjectPublicKey
  tbs : Option TbsCertificate
  message : Option Bytes
  certificate : Option Bytes
  deriving DecidableEq

/-- Modelled from the spec (section 6): the collaborator responses consumed by
one run — 20 random serial bytes, the two existence answers, and the results
of derive, serialize, sign and certificate write for each mechanism. -/
structure Env where
  serial : Bytes
  ed255Exists : Bool
  p256Exists : Bool
  ed255Derive : Except Error Nat
  p256Derive : Except Error Nat
  ed255Serialize : Except Error Bytes
  p256Serialize : Except Error Bytes
  ed255Sign : Except Error Bytes
  p256Sign : Except Error Bytes
  write_certificate : Except Error Nat

/-- The Mechanism passed to the signing request for an algorithm. -/
def algMechanism : SignatureAlgorithm → Mechanism
  | SignatureAlgorithm.Ed255 => Mechanism.Ed255
  | SignatureAlgorithm.P256 => Mechanism.P256

/-- The TBS certificate value built by try_attest (source lines 102-110):
version v3, the drawn serial, the resolved algorithm, issuer Trussed with no
country, empty subject, fixed validity start with unset end, and the derived
subject public key. -/
def builtTbs (signature_algorithm : SignatureAlgorithm) (serial : Bytes)
    (spki : SerializedSubjectPublicKey) : TbsCertificate :=
  { version := Version.V3
    serial := serial
    signature_algorithm := signature_algorithm
    issuer := Name.with_organization Name.default orgTrussed
    subject := Name.default
    validity := { start := startDatetime, end_ := none }
    subject_public_key_info := spki }

/-- Steps 3 to 5 of try_attest after the subject public key is serialized:
build and encode the TBS value, sign it with the attestation key of the
resolved algorithm (panicking when the Ed25519 signature is not 64 bytes or
the P-256 signature exceeds 72 bytes), encode the certificate and persist it. -/
def writeOut (env : Env) (signature_algorithm : SignatureAlgorithm)
    (signature : SerializedSignature) (spki : SerializedSubjectPublicKey)
    (tbs : TbsCertificate) (message : Bytes) (tr : List Event) : RunResult :=
  let certificate := Certificate.encode
    { tbs_certificate := message
      signature_algorithm := signature_algorithm
      signature := signature }
  match env.write_certificate with
  | Except.error e =>
      ⟨Outcome.err e, tr ++ [Event.writeCertificate], some spki, some tbs, some message,
        some certificate⟩
  | Except.ok id =>
      ⟨Outcome.ok id, tr ++ [Event.writeCertificate], some spki, some tbs, some message,
        some certificate⟩

def finishAttest (env : Env) (signature_algorithm : SignatureAlgorithm) (serial : Bytes)
    (spki : SerializedSubjectPublicKey) (tr : List Event) : RunResult :=
  let to_be_signed_certificate := builtTbs signature_algorithm serial spki
  let message := tbsMessage to_be_signed_certificate
  match signature_algorithm with
  | SignatureAlgorithm.Ed255 =>
    match env.ed255Sign with
    | Except.error e =>
        ⟨Outcome.err e, tr ++ [Event.sign Mechanism.Ed255], some spki,
          some to_be_signed_certificate, some message, none⟩
    | Except.ok raw =>
        if raw.length = 64 then
          writeOut env signature_algorithm (SerializedSignature.Ed255 raw) spki
            to_be_signed_certificate message (tr ++ [Event.sign Mechanism.Ed255])
        else
          ⟨Outcome.panicked, tr ++ [Event.sign Mechanism.Ed255], some spki,
            some to_be_signed_certificate, some message, none⟩
  | SignatureAlgorithm.P256 =>
    match env.p256Sign with
    | Except.error e =>
        ⟨Outcome.err e, tr ++ [Event.sign Mechanism.P256], some spki,
          some to_be_signed_certificate, some message, none⟩
    | Except.ok der =>
        if der.length ≤ 72 then
          writeOut env signature_algorithm (SerializedSignature.P256 der) spki
            to_be_signed_certificate message (tr ++ [Event.sign Mechanism.P256])
        else
          ⟨Outcome.panicked, tr ++ [Event.sign Mechanism.P256], some spki,
            some to_be_signed_certificate, some message, none⟩

/-- The orchestration try_attest, translated from the source: resolve the
mechanism, draw the serial, probe key existence under Ed255 then P256,
derive/serialize/delete the ephemeral public key (a serialize failure is an
unwrap panic; a wrong serialized length is an ImplementationError after the
delete), then build, sign, assemble and persist the certificate. -/
def try_attest (env : Env) (request : AttestRequest) : RunResult :=
  match SignatureAlgorithm.try_from request.signing_mechanism with
  | Except.error e => ⟨Outcome.err e, [], none, none, none, none⟩
  | Except.ok signature_algorithm =>
    if env.ed255Exists then
      match env.ed255Derive with
      | Except.error e =>
          ⟨Outcome.err e,
            [Event.fillRandom, Event.existsCheck Mechanism.Ed255,
             Event.deriveKey Mechanism.Ed255], none, none, none, none⟩
      | Except.ok handle =>
        match env.ed255Serialize with
        | Except.error _ =>
            ⟨Outcome.panicked,
              [Event.fillRandom, Event.existsCheck Mechanism.Ed255,
               Event.deriveKey Mechanism.Ed255,
               Event.serializeKey Mechanism.Ed255 handle], none, none, none, none⟩
        | Except.ok serialized_key =>
          let tr := [Event.fillRandom, Event.existsCheck Mechanism.Ed255,
               Event.deriveKey Mechanism.Ed255,
               Event.serializeKey Mechanism.Ed255 handle, Event.deleteKey handle]
          if serialized_key.length = 32 then
            finishAttest env signature_algorithm env.serial
              (SerializedSubjectPublicKey.Ed255 serialized_key) tr
          else
            ⟨Outcome.err Error.ImplementationError, tr, none, none, none, none⟩
    else if env.p256Exists then
      match env.p256Derive with
      | Except.error e =>
          ⟨Outcome.err e,
            [Event.fillRandom, Event.existsCheck Mechanism.Ed255,
             Event.existsCheck Mechanism.P256,
             Event.deriveKey Mechanism.P256], none, none, none, none⟩
      | Except.ok handle =>
        match env.p256Serialize with
        | Except.error _ =>
            ⟨Outcome.panicked,
              [Event.fillRandom, Event.existsCheck Mechanism.Ed255,
               Event.existsCheck Mechanism.P256,
               Event.deriveKey Mechanism.P256,
               Event.serializeKey Mechanism.P256 handle], none, none, none, none⟩
        | Except.ok serialized_key =>
          let tr := [Event.fillRandom, Event.existsCheck Mechanism.Ed255,
               Event.existsCheck Mechanism.P256,
               Event.deriveKey Mechanism.P256,
               Event.serializeKey Mechanism.P256 handle, Event.deleteKey handle]
          if serialized_key.length = 65 then
            finishAttest env signature_algorithm env.serial
              (SerializedSubjectPublicKey.P256 serialized_key) tr
          else
            ⟨Outcome.err Error.ImplementationError, tr, none, none, none, none⟩
    else
      ⟨Outcome.err Error.NoSuchKey,
        [Event.fillRandom, Event.existsCheck Mechanism.Ed255,
         Event.existsCheck Mechanism.P256], none, none, none, none⟩

/-- Modelled from the spec (section 4.1, section 6): collaborator results are
well formed when serialization of a freshly derived public key succeeds, an
Ed25519 raw signature is 64 bytes, and a P-256 DER signature is at most 72
bytes. -/
def Env.WellFormed (env : Env) : Prop :=
  (∃ b, env.ed255Serialize = Except.ok b)
  ∧ (∃ b, env.p256Serialize = Except.ok b)
  ∧ (∀ s, env.ed255Sign = Except.ok s → s.length = 64)
  ∧ (∀ s, env.p256Sign = Except.ok s → s.length ≤ 72)

/-- A concrete Ed255 request. -/
def reqEd : AttestRequest := { signing_mechanism := Mechanism.Ed255, private_key := 0 }

/-- A concrete P256 request. -/
def reqP : AttestRequest := { signing_mechanism := Mechanism.P256, private_key := 0 }

/-- A concrete request with an unsupported mechanism. -/
def reqX : AttestRequest := { signing_mechanism := Mechanism.X255, private_key := 0 }

/-- A collaborator environment in which an Ed255 attestation fully succeeds. -/
def envOkEd : Env :=
  { serial := List.replicate 20 1
    ed255Exists := true
    p256Exists := false
    ed255Derive := Except.ok 7
    p256Derive := Except.ok 8
    ed255Serialize := Except.ok (List.replicate 32 2)
    p256Serialize := Except.ok (List.replicate 65 4)
    ed255Sign := Except.ok (List.replicate 64 3)
    p256Sign := Except.ok (List.replicate 70 5)
    write_certificate := Except.ok 5 }

/-- A collaborator environment in which a P256 attestation fully succeeds. -/
def envOkP : Env :=
  { envOkEd with ed255Exists := false, p256Exists := true, write_certificate := Except.ok 3 }

/-- An environment in which the key exists under both mechanisms. -/
def envBoth : Env := { envOkEd with p256Exists := true }

/-- An environment in which the key exists under neither mechanism. -/
def envNone : Env := { envOkEd with ed255Exists := false, p256Exists := false }

/-- An environment in which Ed255 key serialization fails. -/
def envSerErr : Env := { envOkEd with ed255Serialize := Except.error (Error.other 0) }

/-- The TBS value of the concrete successful Ed255 run. -/
def tbsC5 : TbsCertificate :=
  builtTbs SignatureAlgorithm.Ed255 (List.replicate 20 1)
    (SerializedSubjectPublicKey.Ed255 (List.replicate 32 2))

/-- The signed byte string of the concrete successful Ed255 run. -/
def msgC5 : Bytes := tbsMessage tbsC5

/-- The certificate value of the concrete successful Ed255 run. -/
def certC5 : Certificate :=
  { tbs_certificate := msgC5
    signature_algorithm := SignatureAlgorithm.Ed255
    signature := SerializedSignature.Ed255 (List.replicate 64 3) }


/-- The stripping loop agrees with dropWhile on zero bytes. -/
lemma stripLeadingZeros_eq_dropWhile (l : Bytes) :
    stripLeadingZeros l = l.dropWhile (fun b => b == 0) := by
  induction l with
  | nil => rfl
  | cons b bs ih =>
      by_cases hb : b = 0
      · simp [stripLeadingZeros, List.dropWhile, hb, ih]
      · have hb2 : (b == 0) = false := by simpa using hb
        simp [stripLeadingZeros, List.dropWhile, hb, hb2, ih]

/-- Stripping an all-zero byte string leaves nothing. -/
lemma stripLeadingZeros_replicate (k : Nat) :
    stripLeadingZeros (List.replicate k 0) = [] := by
  induction k with
  | zero => rfl
  | succ n ih => simp [List.replicate_succ, stripLeadingZeros, ih]

/-- C1: the certificate pipeline's encoders do not keep encoded_length equal
to the number of emitted bytes. Only the Ed25519 SPKI agrees (42 = 42): the
P-256 SPKI declares 0x59 = 89 but emits 80 bytes, the Ed25519 signature
declares 65 but emits 67 bytes, and the P-256 signature of a 70-byte DER
signature declares 71 but emits 85 bytes. -/
theorem c1_encoded_length_vs_encode :
    (SerializedSubjectPublicKey.encoded_length
        (SerializedSubjectPublicKey.Ed255 (List.replicate 32 2)) = 42
      ∧ (SerializedSubjectPublicKey.encode
          (SerializedSubjectPublicKey.Ed255 (List.replicate 32 2))).length = 42)
    ∧ (SerializedSubjectPublicKey.encoded_length
        (SerializedSubjectPublicKey.P256 (List.replicate 65 4)) = 89
      ∧ (SerializedSubjectPublicKey.encode
          (SerializedSubjectPublicKey.P256 (List.replicate 65 4))).length = 80)
    ∧ (SerializedSignature.encoded_length
        (SerializedSignature.Ed255 (List.replicate 64 3)) = 65
      ∧ (SerializedSignature.encode
          (SerializedSignature.Ed255 (List.replicate 64 3))).length = 67)
    ∧ (SerializedSignature.encoded_length
        (SerializedSignature.P256 (List.replicate 70 5)) = 71
      ∧ (SerializedSignature.encode
          (SerializedSignature.P256 (List.replicate 70 5))).length = 85) := by
  decide

/-- C2: BigEndianInteger strips all leading 0x00 bytes and prepends exactly
one 0x00 byte precisely when the stripped slice is empty or its first byte is
at least 0x80; an all-zero or empty input encodes to the single byte 0x00, and
encoded_length equals the length of the emitted content. -/
theorem c2_big_endian_integer (num : Bytes) (k : Nat) :
    BigEndianInteger.encode num
        = (if num.dropWhile (fun b => b == 0) = []
              ∨ 0x80 ≤ (num.dropWhile (fun b => b == 0)).headD 0
           then 0 :: num.dropWhile (fun b => b == 0)
           else num.dropWhile (fun b => b == 0))
    ∧ BigEndianInteger.encoded_length num = (BigEndianInteger.encode num).length
    ∧ BigEndianInteger.encode (List.replicate k 0) = [0]
    ∧ BigEndianInteger.encode [] = [0] := by
  refine ⟨?_, ?_, ?_, rfl⟩
  · rw [← stripLeadingZeros_eq_dropWhile]
    cases h : stripLeadingZeros num with
    | nil => simp [BigEndianInteger.encode, h]
    | cons b bs =>
        simp only [BigEndianInteger.encode, h, List.headD_cons]
        by_cases hb : 0x80 ≤ b <;> simp [hb]
  · cases h : stripLeadingZeros num with
    | nil => simp [BigEndianInteger.encode, BigEndianInteger.encoded_length, h]
    | cons b bs =>
        simp only [BigEndianInteger.encode, BigEndianInteger.encoded_length, h]
        by_cases hb : 0x80 ≤ b <;> simp [hb]
  · simp [BigEndianInteger.encode, stripLeadingZeros_replicate k]

/-- C3: for a 15-byte datetime literal, a year lexicographically below "2050"
is emitted as a UTCTime whose content is exactly bytes 2..15 (13 bytes), and
otherwise as a GeneralizedTime over all 15 bytes; the years "2049" and "2050"
fall on the two sides of the cutover, and the test is the byte comparison of
the first four bytes against "2050". -/
theorem c3_datetime (d : Bytes) (h : d.length = 15) :
    (lexLt (d.take 4) b2050 = true →
        Datetime.encode d = 0x17 :: 0x0D :: d.drop 2 ∧ (d.drop 2).length = 13)
    ∧ (lexLt (d.take 4) b2050 = false → Datetime.encode d = 0x18 :: 0x0F :: d)
    ∧ (d.take 4 = [0x32, 0x30, 0x34, 0x39] → Datetime.encode d = 0x17 :: 0x0D :: d.drop 2)
    ∧ (d.take 4 = [0x32, 0x30, 0x35, 0x30] → Datetime.encode d = 0x18 :: 0x0F :: d) := by
  have hdrop : (d.drop 2).length = 13 := by simp [List.length_drop, h]
  have hutc : lexLt (d.take 4) b2050 = true → Datetime.encode d = 0x17 :: 0x0D :: d.drop 2 := by
    intro hx
    simp [Datetime.encode, hx, tlv, hdrop, berLength]
  have hgen : lexLt (d.take 4) b2050 = false → Datetime.encode d = 0x18 :: 0x0F :: d := by
    intro hx
    simp [Datetime.encode, hx, tlv, h, berLength]
  refine ⟨fun hx => ⟨hutc hx, hdrop⟩, hgen, ?_, ?_⟩
  · intro ht
    exact hutc (by rw [ht]; decide)
  · intro ht
    exact hgen (by rw [ht]; decide)

/-- C3 witness: the fixed start literal (year 2021) is encoded as a UTCTime
over its last 13 bytes. -/
theorem c3_datetime_witness :
    Datetime.encode startDatetime = 0x17 :: 0x0D :: startDatetime.drop 2 :=
  ((c3_datetime startDatetime rfl).1 (by decide)).1

/-- C6: every BIT STRING emitted by the SPKI and signature encoders begins
with a single 0x00 unused-bits byte and declares payload length plus one:
33 for an Ed25519 key, 66 for a P-256 key, 65 for an Ed25519 signature, and
DER length plus one for a P-256 signature. -/
theorem c6_bit_string_framing (pk32 sig64 pk65 dersig : Bytes)
    (h1 : pk32.length = 32) (h2 : sig64.length = 64) (h3 : pk65.length = 65)
    (h4 : dersig.length ≤ 72) :
    SerializedSubjectPublicKey.encode (SerializedSubjectPublicKey.Ed255 pk32)
        = tlv 0x30 ED255_OID_ENCODING ++ 0x03 :: 33 :: 0x00 :: pk32
    ∧ SerializedSubjectPublicKey.encode (SerializedSubjectPublicKey.P256 pk65)
        = tlv 0x30 P256_OID_ENCODING ++ 0x03 :: 66 :: 0x00 :: pk65
    ∧ SerializedSignature.encode (SerializedSignature.Ed255 sig64)
        = 0x03 :: 65 :: 0x00 :: sig64
    ∧ SerializedSignature.encode (SerializedSignature.P256 dersig)
        = tlv 0x30 P256_OID_ENCODING ++ 0x03 :: (dersig.length + 1) :: 0x00 :: dersig := by
  have h5 : dersig.length + 1 < 0x80 := by omega
  refine ⟨?_, ?_, ?_, ?_⟩ <;>
    simp [SerializedSubjectPublicKey.encode, SerializedSignature.encode, tlv, berLength,
      h1, h2, h3, h5]

/-- C6 witness: the Ed25519 signature BIT STRING at a concrete input. -/
theorem c6_bit_string_framing_witness :
    SerializedSignature.encode (SerializedSignature.Ed255 (List.replicate 64 3))
      = 0x03 :: 65 :: 0x00 :: List.replicate 64 3 :=
  (c6_bit_string_framing (List.replicate 32 2) (List.replicate 64 3) (List.replicate 65 4)
    (List.replicate 70 5) (by decide) (by decide) (by decide) (by decide)).2.2.1

/-- The ghost subject-public-key value of finishAttest is always the spki it
was given. -/
lemma finish_spki (env : Env) (a : SignatureAlgorithm) (serial : Bytes)
    (spki : SerializedSubjectPublicKey) (tr : List Event) :
    (finishAttest env a serial spki tr).spki = some spki := by
  cases a
  case Ed255 =>
    simp only [finishAttest]
    cases hS : env.ed255Sign with
    | error e => simp
    | ok raw =>
        by_cases hL : raw.length = 64
        · simp only [hL, if_true, writeOut]
          cases hW : env.write_certificate <;> simp
        · simp [hL]
  case P256 =>
    simp only [finishAttest]
    cases hS : env.p256Sign with
    | error e => simp
    | ok der =>
        by_cases hL : der.length ≤ 72
        · simp only [hL, if_true, writeOut]
          cases hW : env.write_certificate <;> simp
        · simp [hL]

/-- finishAttest only appends signing and certificate-write events to the
trace it was given. -/
lemma finish_trace (env : Env) (a : SignatureAlgorithm) (serial : Bytes)
    (spki : SerializedSubjectPublicKey) (tr : List Event) :
    ∃ rest, (finishAttest env a serial spki tr).trace = tr ++ rest
      ∧ ∀ e ∈ rest, e = Event.sign Mechanism.Ed255 ∨ e = Event.sign Mechanism.P256
          ∨ e = Event.writeCertificate := by
  cases a
  case Ed255 =>
    simp only [finishAttest]
    cases hS : env.ed255Sign with
    | error e => exact ⟨[Event.sign Mechanism.Ed255], rfl, by decide⟩
    | ok raw =>
        by_cases hL : raw.length = 64
        · simp only [hL, if_true, writeOut]
          cases hW : env.write_certificate
          · refine ⟨[Event.sign Mechanism.Ed255, Event.writeCertificate], by simp, by decide⟩
          · refine ⟨[Event.sign Mechanism.Ed255, Event.writeCertificate], by simp, by decide⟩
        · simp only [hL, if_false]
          exact ⟨[Event.sign Mechanism.Ed255], rfl, by decide⟩
  case P256 =>
    simp only [finishAttest]
    cases hS : env.p256Sign with
    | error e => exact ⟨[Event.sign Mechanism.P256], rfl, by decide⟩
    | ok der =>
        by_cases hL : der.length ≤ 72
        · simp only [hL, if_true, writeOut]
          cases hW : env.write_certificate
          · refine ⟨[Event.sign Mechanism.P256, Event.writeCertificate], by simp, by decide⟩
          · refine ⟨[Event.sign Mechanism.P256, Event.writeCertificate], by simp, by decide⟩
        · simp only [hL, if_false]
          exact ⟨[Event.sign Mechanism.P256], rfl, by decide⟩

/-- On a successful finishAttest the ghost TBS value, the signed message and
the trace are fully determined. -/
lemma finish_ok (env : Env) (a : SignatureAlgorithm) (serial : Bytes)
    (spki : SerializedSubjectPublicKey) (tr : List Event) (id : Nat)
    (hok : (finishAttest env a serial spki tr).outcome = Outcome.ok id) :
    (finishAttest env a serial spki tr).tbs = some (builtTbs a serial spki)
    ∧ (finishAttest env a serial spki tr).message = some (tbsMessage (builtTbs a serial spki))
    ∧ (finishAttest env a serial spki tr).trace
        = tr ++ [Event.sign (algMechanism a), Event.writeCertificate] := by
  cases a
  case Ed255 =>
    simp only [finishAttest] at hok ⊢
    cases hS : env.ed255Sign with
    | error e => simp [hS] at hok
    | ok raw =>
        simp only [hS] at hok
        by_cases hL : raw.length = 64
        · simp only [hL, if_true, writeOut] at hok ⊢
          cases hW : env.write_certificate with
          | error e2 => simp [hW] at hok
          | ok j => simp [algMechanism]
        · simp [hL] at hok
  case P256 =>
    simp only [finishAttest] at hok ⊢
    cases hS : env.p256Sign with
    | error e => simp [hS] at hok
    | ok der =>
        simp only [hS] at hok
        by_cases hL : der.length ≤ 72
        · simp only [hL, if_true, writeOut] at hok ⊢
          cases hW : env.write_certificate with
          | error e2 => simp [hW] at hok
          | ok j => simp [algMechanism]
        · simp [hL] at hok

/-- A resolved algorithm signs under the mechanism it was resolved from. -/
lemma algMechanism_eq (m : Mechanism) (a : SignatureAlgorithm)
    (hA : SignatureAlgorithm.try_from m = Except.ok a) : algMechanism a = m := by
  cases m <;> simp [SignatureAlgorithm.try_from] at hA <;> simp [← hA, algMechanism]

/-- A successful run resolved the mechanism and went through exactly one of
the two derive-serialize-delete branches, continuing with finishAttest. -/
lemma ok_shape (env : Env) (req : AttestRequest) (id : Nat)
    (hok : (try_attest env req).outcome = Outcome.ok id) :
    ∃ a, SignatureAlgorithm.try_from req.signing_mechanism = Except.ok a
      ∧ ((∃ h sk, env.ed255Exists = true ∧ env.ed255Derive = Except.ok h
            ∧ env.ed255Serialize = Except.ok sk ∧ sk.length = 32
            ∧ try_attest env req
                = finishAttest env a env.serial (SerializedSubjectPublicKey.Ed255 sk)
                    [Event.fillRandom, Event.existsCheck Mechanism.Ed255,
                     Event.deriveKey Mechanism.Ed255,
                     Event.serializeKey Mechanism.Ed255 h, Event.deleteKey h])
        ∨ (∃ h sk, env.ed255Exists = false ∧ env.p256Exists = true
            ∧ env.p256Derive = Except.ok h
            ∧ env.p256Serialize = Except.ok sk ∧ sk.length = 65
            ∧ try_attest env req
                = finishAttest env a env.serial (SerializedSubjectPublicKey.P256 sk)
                    [Event.fillRandom, Event.existsCheck Mechanism.Ed255,
                     Event.existsCheck Mechanism.P256,
                     Event.deriveKey Mechanism.P256,
                     Event.serializeKey Mechanism.P256 h, Event.deleteKey h])) := by
  obtain ⟨mech, pk⟩ := req
  cases mech
  case X255 => simp [try_attest, SignatureAlgorithm.try_from] at hok
  case Sha256 => simp [try_attest, SignatureAlgorithm.try_from] at hok
  case HmacSha256 => simp [try_attest, SignatureAlgorithm.try_from] at hok
  case Totp => simp [try_attest, SignatureAlgorithm.try_from] at hok
  case Ed255 =>
    refine ⟨SignatureAlgorithm.Ed255, rfl, ?_⟩
    cases hEx : env.ed255Exists
    case true =>
      cases hD : env.ed255Derive with
      | error e => simp [try_attest, SignatureAlgorithm.try_from, hEx, hD] at hok
      | ok h =>
          cases hS : env.ed255Serialize with
          | error e => simp [try_attest, SignatureAlgorithm.try_from, hEx, hD, hS] at hok
          | ok sk =>
              by_cases hL : sk.length = 32
              · refine Or.inl ⟨h, sk, rfl, rfl, rfl, hL, ?_⟩
                simp [try_attest, SignatureAlgorithm.try_from, hEx, hD, hS, hL]
              · simp [try_attest, SignatureAlgorithm.try_from, hEx, hD, hS, hL] at hok
    case false =>
      cases hP : env.p256Exists
      case false => simp [try_attest, SignatureAlgorithm.try_from, hEx, hP] at hok
      case true =>
        cases hD : env.p256Derive with
        | error e => simp [try_attest, SignatureAlgorithm.try_from, hEx, hP, hD] at hok
        | ok h =>
            cases hS : env.p256Serialize with
            | error e => simp [try_attest, SignatureAlgorithm.try_from, hEx, hP, hD, hS] at hok
            | ok sk =>
                by_cases hL : sk.length = 65
                · refine Or.inr ⟨h, sk, rfl, rfl, rfl, rfl, hL, ?_⟩
                  simp [try_attest, SignatureAlgorithm.try_from, hEx, hP, hD, hS, hL]
                · simp [try_attest, SignatureAlgorithm.try_from, hEx, hP, hD, hS, hL] at hok
  case P256 =>
    refine ⟨SignatureAlgorithm.P256, rfl, ?_⟩
    cases hEx : env.ed255Exists
    case true =>
      cases hD : env.ed255Derive with
      | error e => simp [try_attest, SignatureAlgorithm.try_from, hEx, hD] at hok
      | ok h =>
          cases hS : env.ed255Serialize with
          | error e => simp [try_attest, SignatureAlgorithm.try_from, hEx, hD, hS] at hok
          | ok sk =>
              by_cases hL : sk.length = 32
              · refine Or.inl ⟨h, sk, rfl, rfl, rfl, hL, ?_⟩
                simp [try_attest, SignatureAlgorithm.try_from, hEx, hD, hS, hL]
              · simp [try_attest, SignatureAlgorithm.try_from, hEx, hD, hS, hL] at hok
    case false =>
      cases hP : env.p256Exists
      case false => simp [try_attest, SignatureAlgorithm.try_from, hEx, hP] at hok
      case true =>
        cases hD : env.p256Derive with
        | error e => simp [try_attest, SignatureAlgorithm.try_from, hEx, hP, hD] at hok
        | ok h =>
            cases hS : env.p256Serialize with
            | error e => simp [try_attest, SignatureAlgorithm.try_from, hEx, hP, hD, hS] at hok
            | ok sk =>
                by_cases hL : sk.length = 65
                · refine Or.inr ⟨h, sk, rfl, rfl, rfl, rfl, hL, ?_⟩
                  simp [try_attest, SignatureAlgorithm.try_from, hEx, hP, hD, hS, hL]
                · simp [try_attest, SignatureAlgorithm.try_from, hEx, hP, hD, hS, hL] at hok

/-- C7: a request whose mechanism is neither Ed255 nor P256 fails with
MechanismNotAvailable before any store interaction: the trace is empty, so no
random bytes are drawn, no existence check, derivation, signing or
certificate write happens, and no store is mutated. -/
theorem c7_mechanism_gate (env : Env) (request : AttestRequest)
    (h1 : request.signing_mechanism ≠ Mechanism.Ed255)
    (h2 : request.signing_mechanism ≠ Mechanism.P256) :
    try_attest env request
      = ⟨Outcome.err Error.MechanismNotAvailable, [], none, none, none, none⟩ := by
  obtain ⟨mech, pk⟩ := request
  cases mech <;> simp_all [try_attest, SignatureAlgorithm.try_from]

/-- C7 witness: a concrete X255 request is rejected with an empty trace. -/
theorem c7_mechanism_gate_witness :
    (reqX.signing_mechanism ≠ Mechanism.Ed255 ∧ reqX.signing_mechanism ≠ Mechanism.P256)
    ∧ try_attest envOkEd reqX
        = ⟨Outcome.err Error.MechanismNotAvailable, [], none, none, none, none⟩ :=
  ⟨⟨by decide, by decide⟩, c7_mechanism_gate envOkEd reqX (by decide) (by decide)⟩

/-- C8: when the subject key exists under neither mechanism the run fails
with NoSuchKey after checking Ed255 and then P256; when it exists under Ed255
the Ed255 check comes first, P256 is never probed, and any produced subject
public key is the Ed25519 variant — so a key existing under both mechanisms
is attested as an Ed25519 key. -/
theorem c8_key_lookup_order (env : Env) (request : AttestRequest) (a : SignatureAlgorithm)
    (hA : SignatureAlgorithm.try_from request.signing_mechanism = Except.ok a) :
    (env.ed255Exists = false → env.p256Exists = false →
        (try_attest env request).outcome = Outcome.err Error.NoSuchKey
        ∧ (try_attest env request).trace
            = [Event.fillRandom, Event.existsCheck Mechanism.Ed255,
               Event.existsCheck Mechanism.P256])
    ∧ (env.ed255Exists = true →
        (try_attest env request).trace.take 2
            = [Event.fillRandom, Event.existsCheck Mechanism.Ed255]
        ∧ Event.existsCheck Mechanism.P256 ∉ (try_attest env request).trace
        ∧ ∀ s, (try_attest env request).spki = some s
            → ∃ pk, s = SerializedSubjectPublicKey.Ed255 pk) := by
  obtain ⟨mech, pk⟩ := request
  have main : ∀ m : Mechanism, SignatureAlgorithm.try_from m = Except.ok a → m = mech →
      (env.ed255Exists = false → env.p256Exists = false →
        (try_attest env ⟨mech, pk⟩).outcome = Outcome.err Error.NoSuchKey
        ∧ (try_attest env ⟨mech, pk⟩).trace
            = [Event.fillRandom, Event.existsCheck Mechanism.Ed255,
               Event.existsCheck Mechanism.P256])
      ∧ (env.ed255Exists = true →
        (try_attest env ⟨mech, pk⟩).trace.take 2
            = [Event.fillRandom, Event.existsCheck Mechanism.Ed255]
        ∧ Event.existsCheck Mechanism.P256 ∉ (try_attest env ⟨mech, pk⟩).trace
        ∧ ∀ s, (try_attest env ⟨mech, pk⟩).spki = some s
            → ∃ pk2, s = SerializedSubjectPublicKey.Ed255 pk2) := by
    intro m hm hme
    subst hme
    have hrun : ∀ hEx : env.ed255Exists = true,
        (try_attest env ⟨m, pk⟩).trace.take 2
            = [Event.fillRandom, Event.existsCheck Mechanism.Ed255]
        ∧ Event.existsCheck Mechanism.P256 ∉ (try_attest env ⟨m, pk⟩).trace
        ∧ ∀ s, (try_attest env ⟨m, pk⟩).spki = some s
            → ∃ pk2, s = SerializedSubjectPublicKey.Ed255 pk2 := by
      intro hEx
      cases hD : env.ed255Derive with
      | error e =>
          have hval : try_attest env ⟨m, pk⟩
              = ⟨Outcome.err e,
                 [Event.fillRandom, Event.existsCheck Mechanism.Ed255,
                  Event.deriveKey Mechanism.Ed255], none, none, none, none⟩ := by
            simp [try_attest, hm, hEx, hD]
          rw [hval]
          exact ⟨rfl, by simp, by intro s hs; simp at hs⟩
      | ok h =>
          cases hS : env.ed255Serialize with
          | error e =>
              have hval : try_attest env ⟨m, pk⟩
                  = ⟨Outcome.panicked,
                     [Event.fillRandom, Event.existsCheck Mechanism.Ed255,
                      Event.deriveKey Mechanism.Ed255,
                      Event.serializeKey Mechanism.Ed255 h], none, none, none, none⟩ := by
                simp [try_attest, hm, hEx, hD, hS]
              rw [hval]
              exact ⟨rfl, by simp, by intro s hs; simp at hs⟩
          | ok sk =>
              by_cases hL : sk.length = 32
              · obtain ⟨rest, htr, hrest⟩ := finish_trace env a env.serial
                  (SerializedSubjectPublicKey.Ed255 sk)
                  [Event.fillRandom, Event.existsCheck Mechanism.Ed255,
                   Event.deriveKey Mechanism.Ed255,
                   Event.serializeKey Mechanism.Ed255 h, Event.deleteKey h]
                have hval : try_attest env ⟨m, pk⟩
                    = finishAttest env a env.serial (SerializedSubjectPublicKey.Ed255 sk)
                        [Event.fillRandom, Event.existsCheck Mechanism.Ed255,
                         Event.deriveKey Mechanism.Ed255,
                         Event.serializeKey Mechanism.Ed255 h, Event.deleteKey h] := by
                  simp [try_attest, hm, hEx, hD, hS, hL]
                rw [hval]
                refine ⟨?_, ?_, ?_⟩
                · rw [htr]; rfl
                · rw [htr]
                  intro hmem
                  rcases List.mem_append.mp hmem with hin | hin
                  · simp at hin
                  · rcases hrest _ hin with h1 | h1 | h1 <;> simp at h1
                · intro s hs
                  rw [finish_spki] at hs
                  exact ⟨sk, (Option.some_injective _ hs).symm⟩
              · have hval : try_attest env ⟨m, pk⟩
                    = ⟨Outcome.err Error.ImplementationError,
                       [Event.fillRandom, Event.existsCheck Mechanism.Ed255,
                        Event.deriveKey Mechanism.Ed255,
                        Event.serializeKey Mechanism.Ed255 h, Event.deleteKey h],
                       none, none, none, none⟩ := by
                  simp [try_attest, hm, hEx, hD, hS, hL]
                rw [hval]
                exact ⟨rfl, by simp, by intro s hs; simp at hs⟩
    constructor
    · intro hEx hP
      have hval : try_attest env ⟨m, pk⟩
          = ⟨Outcome.err Error.NoSuchKey,
             [Event.fillRandom, Event.existsCheck Mechanism.Ed255,
              Event.existsCheck Mechanism.P256], none, none, none, none⟩ := by
        simp [try_attest, hm, hEx, hP]
      rw [hval]
      exact ⟨rfl, rfl⟩
    · intro hEx
      exact hrun hEx
  exact main mech hA rfl

/-- C8 witness: with the key under neither mechanism the concrete run fails
with NoSuchKey. -/
theorem c8_key_lookup_order_witness :
    (try_attest envNone reqEd).outcome = Outcome.err Error.NoSuchKey :=
  ((c8_key_lookup_order envNone reqEd SignatureAlgorithm.Ed255 rfl).1 rfl rfl).1

/-- C9: on every successful run the trace is exactly fill-random, the
existence checks, then derive, serialize and delete of the ephemeral public
key back to back, and only then the signing and certificate-write: the delete
happens immediately after serialization, before the TBS structure is signed
or anything further touches a store, on both branches. -/
theorem c9_ephemeral_key_cleanup (env : Env) (request : AttestRequest) (id : Nat)
    (hok : (try_attest env request).outcome = Outcome.ok id) :
    (env.ed255Exists = true →
      ∀ h, env.ed255Derive = Except.ok h →
        (try_attest env request).trace
          = [Event.fillRandom, Event.existsCheck Mechanism.Ed255,
             Event.deriveKey Mechanism.Ed255, Event.serializeKey Mechanism.Ed255 h,
             Event.deleteKey h, Event.sign request.signing_mechanism,
             Event.writeCertificate])
    ∧ (env.ed255Exists = false →
      ∀ h, env.p256Derive = Except.ok h →
        (try_attest env request).trace
          = [Event.fillRandom, Event.existsCheck Mechanism.Ed255,
             Event.existsCheck Mechanism.P256, Event.deriveKey Mechanism.P256,
             Event.serializeKey Mechanism.P256 h, Event.deleteKey h,
             Event.sign request.signing_mechanism, Event.writeCertificate]) := by
  obtain ⟨a, hA, hbr⟩ := ok_shape env request id hok
  have hAm : algMechanism a = request.signing_mechanism := algMechanism_eq _ _ hA
  constructor
  · intro hEx h hD
    rcases hbr with ⟨h0, sk, hEx0, hD0, hS0, hL0, heq⟩ | ⟨h0, sk, hEx0, hP0, hD0, hS0, hL0, heq⟩
    · have hh : h0 = h := by
        rw [hD0] at hD
        exact (Except.ok.injEq _ _).mp hD
      subst hh
      rw [heq] at hok ⊢
      obtain ⟨_, _, htr⟩ := finish_ok _ _ _ _ _ _ hok
      rw [htr, hAm]
      rfl
    · rw [hEx] at hEx0
      simp at hEx0
  · intro hEx h hD
    rcases hbr with ⟨h0, sk, hEx0, hD0, hS0, hL0, heq⟩ | ⟨h0, sk, hEx0, hP0, hD0, hS0, hL0, heq⟩
    · rw [hEx] at hEx0
      simp at hEx0
    · have hh : h0 = h := by
        rw [hD0] at hD
        exact (Except.ok.injEq _ _).mp hD
      subst hh
      rw [heq] at hok ⊢
      obtain ⟨_, _, htr⟩ := finish_ok _ _ _ _ _ _ hok
      rw [htr, hAm]
      rfl

/-- C9 witness: the trace of the concrete successful Ed255 run. -/
theorem c9_ephemeral_key_cleanup_witness :
    (try_attest envOkEd reqEd).trace
      = [Event.fillRandom, Event.existsCheck Mechanism.Ed255, Event.deriveKey Mechanism.Ed255,
         Event.serializeKey Mechanism.Ed255 7, Event.deleteKey 7, Event.sign Mechanism.Ed255,
         Event.writeCertificate] :=
  (c9_ephemeral_key_cleanup envOkEd reqEd 5 (by rfl)).1 (by rfl) 7 (by rfl)

/-- C4: the TBS value built by every successful run has version v3 whose
field encodes as explicit context tag 0xA0 over content 02 01 02, issuer
Trussed with no country, an empty subject, the fixed validity start with the
end unset and defaulting to "99991231235959Z" at encode time, an encoding
consisting of exactly the seven fields (no extensions field), and, for a
P-256 request, the ecdsaWithSHA256 OID bytes as signature algorithm. -/
theorem c4_tbs_contents (env : Env) (request : AttestRequest) (id : Nat)
    (hok : (try_attest env request).outcome = Outcome.ok id) :
    ∃ t, (try_attest env request).tbs = some t
      ∧ t.version = Version.V3
      ∧ t.issuer = { country := none, organization := some orgTrussed }
      ∧ t.subject = { country := none, organization := none }
      ∧ t.validity = { start := startDatetime, end_ := none }
      ∧ Validity.encode t.validity
          = Datetime.encode startDatetime ++ Datetime.encode defaultEnd
      ∧ TbsCertificate.encode t
          = [0xA0, 0x03, 0x02, 0x01, 0x02]
            ++ wrapField 0x02 (BigEndianInteger.encoded_length t.serial)
                 (BigEndianInteger.encode t.serial)
            ++ wrapField 0x30 (SignatureAlgorithm.encoded_length t.signature_algorithm)
                 (SignatureAlgorithm.encode t.signature_algorithm)
            ++ [0x30, 0x12, 0x31, 0x10, 0x30, 0x0E, 0x06, 0x03, 0x55, 0x04, 0x0A, 0x0C,
                0x07, 0x54, 0x72, 0x75, 0x73, 0x73, 0x65, 0x64]
            ++ wrapField 0x30 (Validity.encoded_length t.validity) (Validity.encode t.validity)
            ++ [0x30, 0x00]
            ++ wrapField 0x30
                 (SerializedSubjectPublicKey.encoded_length t.subject_public_key_info)
                 (SerializedSubjectPublicKey.encode t.subject_public_key_info)
      ∧ (request.signing_mechanism = Mechanism.P256 →
          t.signature_algorithm = SignatureAlgorithm.P256
          ∧ SignatureAlgorithm.encode t.signature_algorithm
              = [0x06, 0x08, 0x2A, 0x86, 0x48, 0xCE, 0x3D, 0x04, 0x03, 0x02]) := by
  obtain ⟨a, hA, hbr⟩ := ok_shape env request id hok
  have main : ∀ (spki : SerializedSubjectPublicKey) (tr : List Event),
      try_attest env request = finishAttest env a env.serial spki tr →
      ∃ t, (try_attest env request).tbs = some t
        ∧ t.version = Version.V3
        ∧ t.issuer = { country := none, organization := some orgTrussed }
        ∧ t.subject = { country := none, organization := none }
        ∧ t.validity = { start := startDatetime, end_ := none }
        ∧ Validity.encode t.validity
            = Datetime.encode startDatetime ++ Datetime.encode defaultEnd
        ∧ TbsCertificate.encode t
            = [0xA0, 0x03, 0x02, 0x01, 0x02]
              ++ wrapField 0x02 (BigEndianInteger.encoded_length t.serial)
                   (BigEndianInteger.encode t.serial)
              ++ wrapField 0x30 (SignatureAlgorithm.encoded_length t.signature_algorithm)
                   (SignatureAlgorithm.encode t.signature_algorithm)
              ++ [0x30, 0x12, 0x31, 0x10, 0x30, 0x0E, 0x06, 0x03, 0x55, 0x04, 0x0A, 0x0C,
                  0x07, 0x54, 0x72, 0x75, 0x73, 0x73, 0x65, 0x64]
              ++ wrapField 0x30 (Validity.encoded_length t.validity) (Validity.encode t.validity)
              ++ [0x30, 0x00]
              ++ wrapField 0x30
                   (SerializedSubjectPublicKey.encoded_length t.subject_public_key_info)
                   (SerializedSubjectPublicKey.encode t.subject_public_key_info)
        ∧ (request.signing_mechanism = Mechanism.P256 →
            t.signature_algorithm = SignatureAlgorithm.P256
            ∧ SignatureAlgorithm.encode t.signature_algorithm
                = [0x06, 0x08, 0x2A, 0x86, 0x48, 0xCE, 0x3D, 0x04, 0x03, 0x02]) := by
    intro spki tr heq
    rw [heq] at hok ⊢
    obtain ⟨htbs, hmsg, htr⟩ := finish_ok _ _ _ _ _ _ hok
    refine ⟨builtTbs a env.serial spki, htbs, rfl, rfl, rfl, rfl, rfl, ?_, ?_⟩
    · rfl
    · intro hP
      rw [hP] at hA
      simp only [SignatureAlgorithm.try_from, Except.ok.injEq] at hA
      subst hA
      exact ⟨rfl, rfl⟩
  rcases hbr with ⟨h0, sk, he1, he2, he3, he4, heq⟩ | ⟨h0, sk, he1, he2, he3, he4, he5, heq⟩
  · exact main _ _ heq
  · exact main _ _ heq

/-- C4 witness: a concrete P-256 run succeeds, and its signature-algorithm
OID bytes are the ecdsaWithSHA256 encoding. -/
theorem c4_tbs_contents_witness :
    (try_attest envOkP reqP).outcome = Outcome.ok 3
    ∧ SignatureAlgorithm.encode SignatureAlgorithm.P256
        = [0x06, 0x08, 0x2A, 0x86, 0x48, 0xCE, 0x3D, 0x04, 0x03, 0x02] := by
  refine ⟨by rfl, ?_⟩
  obtain ⟨t, htbs, hv, hi, hs, hval, hvenc, henc, hp⟩ := c4_tbs_contents envOkP reqP 3 (by rfl)
  obtain ⟨halg, hoid⟩ := hp (by rfl)
  rw [halg] at hoid
  exact hoid

/-- finishAttest cannot panic when the signing collaborators return
well-formed signatures. -/
lemma finish_no_panic (env : Env) (a : SignatureAlgorithm) (serial : Bytes)
    (spki : SerializedSubjectPublicKey) (tr : List Event)
    (hs1 : ∀ s, env.ed255Sign = Except.ok s → s.length = 64)
    (hs2 : ∀ s, env.p256Sign = Except.ok s → s.length ≤ 72) :
    (finishAttest env a serial spki tr).outcome ≠ Outcome.panicked := by
  cases a
  case Ed255 =>
    simp only [finishAttest]
    cases hS : env.ed255Sign with
    | error e => simp
    | ok raw =>
        simp only [hs1 raw hS, if_true, writeOut]
        cases hW : env.write_certificate <;> simp
  case P256 =>
    simp only [finishAttest]
    cases hS : env.p256Sign with
    | error e => simp
    | ok der =>
        simp only [hs2 der hS, if_true, writeOut]
        cases hW : env.write_certificate <;> simp

/-- C10: try_attest panics (an unwrap) exactly at the collaborator
malfunctions the source does not map to typed errors — a failing serialize
on the matched branch, an Ed25519 signature that is not 64 bytes, a P-256
signature above 72 bytes — and under well-formed collaborator results no
panic is reachable, so the call is total. -/
theorem c10_panic_paths (env : Env) (request : AttestRequest) :
    ((∃ a, SignatureAlgorithm.try_from request.signing_mechanism = Except.ok a) →
        env.ed255Exists = true →
        ∀ h e, env.ed255Derive = Except.ok h → env.ed255Serialize = Except.error e →
          (try_attest env request).outcome = Outcome.panicked)
    ∧ ((∃ a, SignatureAlgorithm.try_from request.signing_mechanism = Except.ok a) →
        env.ed255Exists = false → env.p256Exists = true →
        ∀ h e, env.p256Derive = Except.ok h → env.p256Serialize = Except.error e →
          (try_attest env request).outcome = Outcome.panicked)
    ∧ (request.signing_mechanism = Mechanism.Ed255 → env.ed255Exists = true →
        ∀ h sk s, env.ed255Derive = Except.ok h → env.ed255Serialize = Except.ok sk →
          sk.length = 32 → env.ed255Sign = Except.ok s → s.length ≠ 64 →
          (try_attest env request).outcome = Outcome.panicked)
    ∧ (request.signing_mechanism = Mechanism.P256 → env.ed255Exists = false →
        env.p256Exists = true →
        ∀ h sk s, env.p256Derive = Except.ok h → env.p256Serialize = Except.ok sk →
          sk.length = 65 → env.p256Sign = Except.ok s → 72 < s.length →
          (try_attest env request).outcome = Outcome.panicked)
    ∧ (Env.WellFormed env → (try_attest env request).outcome ≠ Outcome.panicked) := by
  obtain ⟨mech, pk⟩ := request
  refine ⟨?_, ?_, ?_, ?_, ?_⟩
  · rintro ⟨a, hA⟩ hEx h e hD hS
    cases mech
    case Ed255 => simp [try_attest, SignatureAlgorithm.try_from, hEx, hD, hS]
    case P256 => simp [try_attest, SignatureAlgorithm.try_from, hEx, hD, hS]
    all_goals simp [SignatureAlgorithm.try_from] at hA
  · rintro ⟨a, hA⟩ hEx hP h e hD hS
    cases mech
    case Ed255 => simp [try_attest, SignatureAlgorithm.try_from, hEx, hP, hD, hS]
    case P256 => simp [try_attest, SignatureAlgorithm.try_from, hEx, hP, hD, hS]
    all_goals simp [SignatureAlgorithm.try_from] at hA
  · intro hM hEx h sk s hD hS hL hSg hne
    have hM2 : mech = Mechanism.Ed255 := hM
    subst hM2
    simp [try_attest, SignatureAlgorithm.try_from, hEx, hD, hS, hL, finishAttest, hSg, hne]
  · intro hM hEx hP h sk s hD hS hL hSg h72
    have hM2 : mech = Mechanism.P256 := hM
    subst hM2
    have hgt : ¬ s.length ≤ 72 := by omega
    simp [try_attest, SignatureAlgorithm.try_from, hEx, hP, hD, hS, hL, finishAttest, hSg, hgt]
  · rintro ⟨⟨b1, hb1⟩, ⟨b2, hb2⟩, hs1, hs2⟩
    have noPanicRun : ∀ (m : Mechanism) (a2 : SignatureAlgorithm),
        SignatureAlgorithm.try_from m = Except.ok a2 →
        (try_attest env ⟨m, pk⟩).outcome ≠ Outcome.panicked := by
      intro m a2 hm
      cases hEx : env.ed255Exists
      case true =>
        cases hD : env.ed255Derive with
        | error e => simp [try_attest, hm, hEx, hD]
        | ok h =>
            by_cases hL : b1.length = 32
            · have hval : try_attest env ⟨m, pk⟩
                  = finishAttest env a2 env.serial (SerializedSubjectPublicKey.Ed255 b1)
                      [Event.fillRandom, Event.existsCheck Mechanism.Ed255,
                       Event.deriveKey Mechanism.Ed255,
                       Event.serializeKey Mechanism.Ed255 h, Event.deleteKey h] := by
                simp [try_attest, hm, hEx, hD, hb1, hL]
              rw [hval]
              exact finish_no_panic env a2 env.serial _ _ hs1 hs2
            · simp [try_attest, hm, hEx, hD, hb1, hL]
      case false =>
        cases hP : env.p256Exists
        case false => simp [try_attest, hm, hEx, hP]
        case true =>
          cases hD : env.p256Derive with
          | error e => simp [try_attest, hm, hEx, hP, hD]
          | ok h =>
              by_cases hL : b2.length = 65
              · have hval : try_attest env ⟨m, pk⟩
                    = finishAttest env a2 env.serial (SerializedSubjectPublicKey.P256 b2)
                        [Event.fillRandom, Event.existsCheck Mechanism.Ed255,
                         Event.existsCheck Mechanism.P256,
                         Event.deriveKey Mechanism.P256,
                         Event.serializeKey Mechanism.P256 h, Event.deleteKey h] := by
                  simp [try_attest, hm, hEx, hP, hD, hb2, hL]
                rw [hval]
                exact finish_no_panic env a2 env.serial _ _ hs1 hs2
              · simp [try_attest, hm, hEx, hP, hD, hb2, hL]
    cases mech
    case Ed255 => exact noPanicRun Mechanism.Ed255 SignatureAlgorithm.Ed255 rfl
    case P256 => exact noPanicRun Mechanism.P256 SignatureAlgorithm.P256 rfl
    all_goals simp [try_attest, SignatureAlgorithm.try_from]

/-- C10 witness: a failing Ed255 serialization panics the concrete run, and
the well-formed concrete environment never panics. -/
theorem c10_panic_paths_witness :
    (try_attest envSerErr reqEd).outcome = Outcome.panicked
    ∧ (try_attest envOkEd reqEd).outcome ≠ Outcome.panicked := by
  constructor
  · exact (c10_panic_paths envSerErr reqEd).1 ⟨SignatureAlgorithm.Ed255, rfl⟩ rfl 7
      (Error.other 0) rfl rfl
  · refine (c10_panic_paths envOkEd reqEd).2.2.2.2 ?_
    refine ⟨⟨List.replicate 32 2, rfl⟩, ⟨List.replicate 65 4, rfl⟩, ?_, ?_⟩
    · intro s hs
      have hs2 : Except.ok (ε := Error) (List.replicate 64 3) = Except.ok s := hs
      injection hs2 with hs3
      rw [← hs3]
      decide
    · intro s hs
      have hs2 : Except.ok (ε := Error) (List.replicate 70 5) = Except.ok s := hs
      injection hs2 with hs3
      rw [← hs3]
      decide

set_option maxRecDepth 4000 in
/-- C5: the certificate encoder does not splice the previously encoded TBS
block verbatim — on the concrete successful Ed255 run the emitted certificate
wraps the signed byte string in a freshly written SEQUENCE header (the
tlv field attribute), so the output differs from the spec's verbatim
embedding, although the signed bytes do appear unchanged as that field's
content. -/
theorem c5_tbs_embedding :
    (try_attest envOkEd reqEd).message = some msgC5
    ∧ (try_attest envOkEd reqEd).certificate = some (Certificate.encode certC5)
    ∧ Certificate.encode certC5
        = wrapField 0x30 (Certificate.contentLength certC5)
            (wrapField 0x30 msgC5.length msgC5
             ++ wrapField 0x30 5 ED255_OID_ENCODING
             ++ wrapField 0x03 65
                  (SerializedSignature.encode (SerializedSignature.Ed255 (List.replicate 64 3))))
    ∧ Certificate.encode certC5 ≠ certificateEncodeSpec certC5 := by
  exact ⟨by rfl, by rfl, by rfl, by decide⟩

end Trussed
